import Mathlib

/-! Spinning cube (`src/spinningcube.cpp`): a shallow embedding.

The program is a single translation unit: `main` builds the OpenGL state,
uploads two constant arrays (`vertex_positions`, `texCoords`) and then runs
the render loop, calling `processInput` and `render` once per iteration.

* The two constant arrays are embedded as lists of rationals (every literal
  of the source is a dyadic rational, hence exactly representable as a
  `float`).
* The matrix code of `render` is embedded over an arbitrary field `K`
  together with the libm functions it calls and the rounding to `float`
  (`MathFns K`). The theorems about the model-view matrix instantiate `K`
  with the real numbers; those about the projection matrix instantiate it
  with the rationals and rounding to binary32.
* `main` is embedded as a function from an environment (what GLFW, the GL
  driver and the image decoder answer) to the trace of calls it issues, the
  text it prints and its exit code.
-/

namespace SpinningCube

/-! ## Geometry: the two constant arrays of `main` -/

/-- The array `vertex_positions` of `main` (lines 147-195): 108 floats, read
by `glVertexAttribPointer(0, 3, GL_FLOAT, GL_FALSE, 0, NULL)` as tightly
packed triples. -/
def vertex_positions : List ℚ := [
  -0.25, -0.25, -0.25, -- 1
  -0.25,  0.25, -0.25, -- 0
   0.25, -0.25, -0.25, -- 2

   0.25,  0.25, -0.25, -- 3
   0.25, -0.25, -0.25, -- 2
  -0.25,  0.25, -0.25, -- 0

   0.25, -0.25, -0.25, -- 2
   0.25,  0.25, -0.25, -- 3
   0.25, -0.25,  0.25, -- 5

   0.25,  0.25,  0.25, -- 4
   0.25, -0.25,  0.25, -- 5
   0.25,  0.25, -0.25, -- 3

   0.25, -0.25,  0.25, -- 5 text/1
   0.25,  0.25,  0.25, -- 4
  -0.25, -0.25,  0.25, -- 6

  -0.25,  0.25,  0.25, -- 7 text/2
  -0.25, -0.25,  0.25, -- 6
   0.25,  0.25,  0.25, -- 4

  -0.25, -0.25,  0.25, -- 6
  -0.25,  0.25,  0.25, -- 7
  -0.25, -0.25, -0.25, -- 1

  -0.25,  0.25, -0.25, -- 0
  -0.25, -0.25, -0.25, -- 1
  -0.25,  0.25,  0.25, -- 7

   0.25, -0.25, -0.25, -- 2
   0.25, -0.25,  0.25, -- 5
  -0.25, -0.25, -0.25, -- 1

  -0.25, -0.25,  0.25, -- 6
  -0.25, -0.25, -0.25, -- 1
   0.25, -0.25,  0.25, -- 5

   0.25,  0.25,  0.25, -- 4
   0.25,  0.25, -0.25, -- 3
  -0.25,  0.25,  0.25, -- 7

  -0.25,  0.25, -0.25, -- 0
  -0.25,  0.25,  0.25, -- 7
   0.25,  0.25, -0.25  -- 3
  ]

/-- The array `texCoords` of `main` (lines 197-245): 72 floats, read by
`glVertexAttribPointer(1, 2, GL_FLOAT, GL_FALSE, 0, NULL)` as tightly packed
pairs. -/
def texCoords : List ℚ := [
  -1.0, -1.0, -- 1
  -1.0, -1.0, -- 0
  -1.0, -1.0, -- 2

  -1.0, -1.0, -- 3
  -1.0, -1.0, -- 2
  -1.0, -1.0, -- 0

  -1.0, -1.0, -- 2
  -1.0, -1.0, -- 3
  -1.0, -1.0, -- 5

  -1.0, -1.0, -- 4
  -1.0, -1.0, -- 5
  -1.0, -1.0, -- 3

  1.0, 0.0, -- 5 text/1
  1.0, 1.0, -- 4
  0.0, 0.0, -- 6

  0.0, 1.0, -- 7 text/2
  0.0, 0.0, -- 6
  1.0, 1.0, -- 4

  -1.0, -1.0, -- 6
  -1.0, -1.0, -- 7
  -1.0, -1.0, -- 1

  -1.0, -1.0, -- 0
  -1.0, -1.0, -- 1
  -1.0, -1.0, -- 7

  -1.0, -1.0, -- 2
  -1.0, -1.0, -- 5
  -1.0, -1.0, -- 1

  -1.0, -1.0, -- 6
  -1.0, -1.0, -- 1
  -1.0, -1.0, -- 5

  -1.0, -1.0, -- 4
  -1.0, -1.0, -- 3
  -1.0, -1.0, -- 7

  -1.0, -1.0, -- 0
  -1.0, -1.0, -- 7
  -1.0, -1.0  -- 3
  ]

/-- Vertex `i` as attribute 0 delivers it: size 3, stride 0, offset 0, so the
floats `3i`, `3i+1`, `3i+2` of `vertex_positions`. -/
def vertex (i : Nat) : ℚ × ℚ × ℚ :=
  (vertex_positions.getD (3 * i) 0, vertex_positions.getD (3 * i + 1) 0,
   vertex_positions.getD (3 * i + 2) 0)

/-- Texture coordinate `i` as attribute 1 delivers it: size 2, stride 0,
offset 0, so the floats `2i`, `2i+1` of `texCoords`. -/
def texCoord (i : Nat) : ℚ × ℚ :=
  (texCoords.getD (2 * i) 0, texCoords.getD (2 * i + 1) 0)

/-- Triangle `k` of `glDrawArrays(GL_TRIANGLES, 0, 36)`: vertices `3k`,
`3k+1`, `3k+2`. -/
def triangle (k : Nat) : List (ℚ × ℚ × ℚ) :=
  [vertex (3 * k), vertex (3 * k + 1), vertex (3 * k + 2)]

/-- Coordinate `a` (0 = x, 1 = y, otherwise z) of a point. -/
def coord (a : Fin 3) (p : ℚ × ℚ × ℚ) : ℚ :=
  if a = 0 then p.1 else if a = 1 then p.2.1 else p.2.2

/-- Triangle `k` lies in the face plane `coord a = s` of the cube. -/
def inFace (a : Fin 3) (s : ℚ) (k : Nat) : Bool :=
  (triangle k).all (fun p => decide (coord a p = s))

/-- The triangles (of the 12 drawn) lying in the face plane `coord a = s`. -/
def faceTriangles (a : Fin 3) (s : ℚ) : List Nat :=
  (List.range 12).filter (inFace a s)

/-- The four corners of the face `coord a = s` of the cube of half-extent
`0.25` centered at the origin. -/
def faceCorners (a : Fin 3) (s : ℚ) : Finset (ℚ × ℚ × ℚ) :=
  (({0.25, -0.25} : Finset ℚ) ×ˢ (({0.25, -0.25} : Finset ℚ) ×ˢ
    ({0.25, -0.25} : Finset ℚ))).filter (fun p => coord a p = s)

/-- The solid face `coord a = s` of the cube: the points of that plane with
every coordinate between `-0.25` and `0.25`. -/
def onFace (a : Fin 3) (s : ℚ) (p : ℚ × ℚ × ℚ) : Prop :=
  coord a p = s ∧ ∀ b : Fin 3, -0.25 ≤ coord b p ∧ coord b p ≤ 0.25

/-- The point `p` lies in the (solid) triangle with the three given vertices:
it is a convex combination of them. -/
def inTriangle : List (ℚ × ℚ × ℚ) → ℚ × ℚ × ℚ → Prop
  | [A, B, C], p => ∃ α β γ : ℚ, 0 ≤ α ∧ 0 ≤ β ∧ 0 ≤ γ ∧ α + β + γ = 1 ∧
      p = (α * A.1 + β * B.1 + γ * C.1, α * A.2.1 + β * B.2.1 + γ * C.2.1,
           α * A.2.2 + β * B.2.2 + γ * C.2.2)
  | _, _ => False

/-- A texture coordinate with both components in `[0,1]`. -/
def inUnitSquare (uv : ℚ × ℚ) : Prop :=
  0 ≤ uv.1 ∧ uv.1 ≤ 1 ∧ 0 ≤ uv.2 ∧ uv.2 ≤ 1

instance (uv : ℚ × ℚ) : Decidable (inUnitSquare uv) := by
  unfold inUnitSquare; infer_instance

/-! ## Rounding to `float`

The type `float` is IEEE-754 binary32 and every arithmetic operation on it
rounds its exact result to the nearest representable value, ties to even. -/

/-- The integer nearest to `s`, ties to the even one. -/
def roundNearestEven (s : ℚ) : ℤ :=
  if s - ⌊s⌋ < 1 / 2 then ⌊s⌋
  else if 1 / 2 < s - ⌊s⌋ then ⌊s⌋ + 1
  else if ⌊s⌋ % 2 = 0 then ⌊s⌋ else ⌊s⌋ + 1

/-- The binary32 value nearest to `x` (24 significant bits, least exponent
-126, ties to even); overflow to infinity, for `|x|` of `2^128` and more, is
not modelled. -/
def fl32 (x : ℚ) : ℚ :=
  roundNearestEven (x / 2 ^ (max (Int.log 2 |x|) (-126) - 23))
    * 2 ^ (max (Int.log 2 |x|) (-126) - 23)

/-! ## GLM: vectors, matrices and the transforms `render` calls

GLM is a header-only library outside this repository; the definitions below
transcribe the functions `render` calls (`glm/gtc/matrix_transform.inl`,
`glm/ext/matrix_clip_space.inl`, `glm/detail/func_trigonometric.inl`) over a
field `K`. The code of the model-view matrix (`translate`, `rotate`) is read
with exact arithmetic; the code of the projection matrix (`perspective` and
its arguments) rounds every operation with `MathFns.fl`. -/

/-- The libm functions the matrix code calls (each returns a `float`), the
constant of `glm::radians` and the rounding of an exact result to `float`. -/
structure MathFns (K : Type) where
  /-- The function `sinf`. -/
  sinf : K → K
  /-- The function `cosf`. -/
  cosf : K → K
  /-- The function `tan` on `float`. -/
  tanf : K → K
  /-- The function `glm::inversesqrt`. -/
  inversesqrt : K → K
  /-- The factor of `glm::radians`, the literal
  `0.01745329251994329576923690768489` (pi / 180) as a `float`. -/
  degToRad : K
  /-- Rounding of an exact value to `float` (the identity in the reading
  over the reals). -/
  fl : K → K

/-- The type `glm::vec3`. -/
structure vec3 (K : Type) where
  x : K
  y : K
  z : K

/-- The type `glm::vec4`. -/
structure vec4 (K : Type) where
  x : K
  y : K
  z : K
  w : K

/-- The type `glm::mat4`: four columns, `c0 = m[0]`, ..., `c3 = m[3]`. -/
structure mat4 (K : Type) where
  c0 : vec4 K
  c1 : vec4 K
  c2 : vec4 K
  c3 : vec4 K

section glm
variable {K : Type} [Field K]

/-- Column times scalar, `v * s`. -/
def vec4.smul (v : vec4 K) (s : K) : vec4 K :=
  ⟨v.x * s, v.y * s, v.z * s, v.w * s⟩

/-- Column plus column. -/
def vec4.add (a b : vec4 K) : vec4 K :=
  ⟨a.x + b.x, a.y + b.y, a.z + b.z, a.w + b.w⟩

/-- The constructor `glm::mat4(1.f)`: the identity. -/
def mat4.identity : mat4 K :=
  ⟨⟨1, 0, 0, 0⟩, ⟨0, 1, 0, 0⟩, ⟨0, 0, 1, 0⟩, ⟨0, 0, 0, 1⟩⟩

/-- The function `glm::radians`: `degrees * 0.0174532925...`. -/
def radians (fns : MathFns K) (degrees : K) : K :=
  degrees * fns.degToRad

/-- The function `glm::normalize`: `v * inversesqrt(dot(v, v))`. -/
def normalize (fns : MathFns K) (v : vec3 K) : vec3 K :=
  let r := fns.inversesqrt (v.x * v.x + v.y * v.y + v.z * v.z)
  ⟨v.x * r, v.y * r, v.z * r⟩

/-- The function `glm::translate(m, v)`:
`Result = m; Result[3] = m[0]*v[0] + m[1]*v[1] + m[2]*v[2] + m[3]`. -/
def translate (m : mat4 K) (v : vec3 K) : mat4 K :=
  { m with c3 := (((m.c0.smul v.x).add (m.c1.smul v.y)).add (m.c2.smul v.z)).add m.c3 }

/-- The function `glm::rotate(m, angle, v)`: builds the 3x3 block `Rotate`
from `c = cos(angle)`, `s = sin(angle)`, `axis = normalize(v)` and
`temp = (1 - c) * axis`, then combines the first three columns of `m` with
it and keeps the fourth. -/
def rotate (fns : MathFns K) (m : mat4 K) (angle : K) (v : vec3 K) : mat4 K :=
  let a := angle
  let c := fns.cosf a
  let s := fns.sinf a
  let axis := normalize fns v
  let temp : vec3 K := ⟨(1 - c) * axis.x, (1 - c) * axis.y, (1 - c) * axis.z⟩
  let r00 := c + temp.x * axis.x
  let r01 := temp.x * axis.y + s * axis.z
  let r02 := temp.x * axis.z - s * axis.y
  let r10 := temp.y * axis.x - s * axis.z
  let r11 := c + temp.y * axis.y
  let r12 := temp.y * axis.z + s * axis.x
  let r20 := temp.z * axis.x + s * axis.y
  let r21 := temp.z * axis.y - s * axis.x
  let r22 := c + temp.z * axis.z
  { c0 := ((m.c0.smul r00).add (m.c1.smul r01)).add (m.c2.smul r02)
    c1 := ((m.c0.smul r10).add (m.c1.smul r11)).add (m.c2.smul r12)
    c2 := ((m.c0.smul r20).add (m.c1.smul r21)).add (m.c2.smul r22)
    c3 := m.c3 }

/-- The function `glm::perspective(fovy, aspect, zNear, zFar)` (right-handed,
depth range -1..1, the default), every operation rounded to `float`:
`tanHalfFovy = tan(fovy / 2)`, `Result[0][0] = 1 / (aspect * tanHalfFovy)`,
`Result[1][1] = 1 / tanHalfFovy`,
`Result[2][2] = - (zFar + zNear) / (zFar - zNear)`, `Result[2][3] = - 1`,
`Result[3][2] = - (2 * zFar * zNear) / (zFar - zNear)`, all other entries
zero. Its debug-only `assert` on `aspect` is not modelled. -/
def perspective (fns : MathFns K) (fovy aspect zNear zFar : K) : mat4 K :=
  let tanHalfFovy := fns.tanf (fns.fl (fovy / 2))
  { c0 := ⟨fns.fl (1 / fns.fl (aspect * tanHalfFovy)), 0, 0, 0⟩
    c1 := ⟨0, fns.fl (1 / tanHalfFovy), 0, 0⟩
    c2 := ⟨0, 0, fns.fl (-(fns.fl (zFar + zNear)) / fns.fl (zFar - zNear)), -1⟩
    c3 := ⟨0, 0, fns.fl (-(fns.fl (fns.fl (2 * zFar) * zNear)) / fns.fl (zFar - zNear)), 0⟩ }

/-- A `vec4` as a function of the component index. -/
def vec4.get (v : vec4 K) (i : Fin 4) : K :=
  if i = 0 then v.x else if i = 1 then v.y else if i = 2 then v.z else v.w

/-- Column `j` of a `mat4`, `m[j]`. -/
def mat4.col (m : mat4 K) (j : Fin 4) : vec4 K :=
  if j = 0 then m.c0 else if j = 1 then m.c1 else if j = 2 then m.c2 else m.c3

/-- The mathematical matrix a column-major `mat4` denotes: entry (row `i`,
column `j`) is `m[j][i]`. -/
def mat4.toMatrix (m : mat4 K) : Matrix (Fin 4) (Fin 4) K :=
  Matrix.of (fun i j => (m.col j).get i)

end glm

/-! ## Reference matrices (from the specification's words) -/

section reference
variable {K : Type} [Field K]

/-- Translation by `(x, y, z)` as a homogeneous 4x4 matrix. -/
def specTranslation (x y z : K) : Matrix (Fin 4) (Fin 4) K :=
  !![1, 0, 0, x;
     0, 1, 0, y;
     0, 0, 1, z;
     0, 0, 0, 1]

/-- Rotation by `θ` radians about the Y axis as a homogeneous 4x4 matrix. -/
def specRotationY (fns : MathFns K) (θ : K) : Matrix (Fin 4) (Fin 4) K :=
  !![fns.cosf θ, 0, fns.sinf θ, 0;
     0, 1, 0, 0;
     -fns.sinf θ, 0, fns.cosf θ, 0;
     0, 0, 0, 1]

/-- Rotation by `θ` radians about the X axis as a homogeneous 4x4 matrix. -/
def specRotationX (fns : MathFns K) (θ : K) : Matrix (Fin 4) (Fin 4) K :=
  !![1, 0, 0, 0;
     0, fns.cosf θ, -fns.sinf θ, 0;
     0, fns.sinf θ, fns.cosf θ, 0;
     0, 0, 0, 1]

end reference

/-- The real-number reading of the libm functions: `sin`, `cos`, `tan`,
`1 / sqrt` and `pi / 180`, with no rounding. -/
noncomputable def realFns : MathFns ℝ :=
  { sinf := Real.sin
    cosf := Real.cos
    tanf := Real.tan
    inversesqrt := fun x => 1 / Real.sqrt x
    degToRad := Real.pi / 180
    fl := id }

/-- The `float` reading: the given libm functions, the constant of
`glm::radians` as a `float`, and rounding to binary32. -/
def float32Fns (sinf cosf tanf inversesqrt : ℚ → ℚ) : MathFns ℚ :=
  { sinf := sinf
    cosf := cosf
    tanf := tanf
    inversesqrt := inversesqrt
    degToRad := fl32 0.01745329251994329576923690768489
    fl := fl32 }

/-! ## Program state and `render` -/

/-- The global variables of the program (lines 21-31), with their initial
values; `mv_location` and `proj_location` have no initialiser and static
storage, so they start at 0. -/
structure Globals where
  gl_width : Int := 640
  gl_height : Int := 480
  shader_program : Nat := 0
  vao : Nat := 0
  mv_location : Int := 0
  proj_location : Int := 0
  texture : Nat := 0
deriving DecidableEq, Repr

/-- The OpenGL constants the program names (their numeric values, from the
OpenGL headers, play no role). -/
inductive GLenum where
  | GL_COLOR_BUFFER_BIT | GL_DEPTH_BUFFER_BIT | GL_TEXTURE_2D | GL_TRIANGLES
  | GL_VENDOR | GL_RENDERER | GL_VERSION | GL_SHADING_LANGUAGE_VERSION
  | GL_DEPTH_TEST | GL_LESS | GL_VERTEX_SHADER | GL_FRAGMENT_SHADER
  | GL_ARRAY_BUFFER | GL_STATIC_DRAW | GL_FLOAT
  | GL_TEXTURE_WRAP_S | GL_TEXTURE_WRAP_T | GL_CLAMP_TO_BORDER
  | GL_TEXTURE_MIN_FILTER | GL_TEXTURE_MAG_FILTER | GL_LINEAR
  | GL_RGB | GL_UNSIGNED_BYTE
deriving DecidableEq, Repr

/-- The two shader sources of `main` (lines 77-114), by name. -/
inductive ShaderSource where
  | vertex_shader | fragment_shader
deriving DecidableEq, Repr

/-- What the image decoder returns on success: `width`, `height`,
`nrChannels` and the decoded bytes. -/
structure Image where
  width : Int
  height : Int
  nrChannels : Int
  data : List Nat
deriving DecidableEq, Repr

/-- The OpenGL calls the program issues, with their arguments (pointer
arguments by the value they point to; a mask by the list of its bits). -/
inductive GLCall (K : Type) where
  | glClear (mask : List GLenum)
  | glViewport (x y width height : Int)
  | glUseProgram (program : Nat)
  | glBindVertexArray (array : Nat)
  | glBindTexture (target : GLenum) (texture : Nat)
  | glUniformMatrix4fv (location : Int) (count : Nat) (transpose : Bool) (value : mat4 K)
  | glDrawArrays (mode : GLenum) (first count : Int)
  | glGetString (name : GLenum)
  | glEnable (cap : GLenum)
  | glDepthFunc (func : GLenum)
  | glCreateShader (type : GLenum)
  | glShaderSource (shader : Nat) (count : Nat) (source : ShaderSource)
  | glCompileShader (shader : Nat)
  | glCreateProgram
  | glAttachShader (program shader : Nat)
  | glLinkProgram (program : Nat)
  | glDeleteShader (shader : Nat)
  | glGenVertexArrays (n : Nat)
  | glGenBuffers (n : Nat)
  | glBindBuffer (target : GLenum) (buffer : Nat)
  | glBufferData (target : GLenum) (data : List ℚ) (usage : GLenum)
  | glVertexAttribPointer (index : Nat) (size : Nat) (type : GLenum) (normalized : Bool)
      (stride : Nat)
  | glEnableVertexAttribArray (index : Nat)
  | glGetUniformLocation (program : Nat) (name : String)
  | glGenTextures (n : Nat)
  | glTexParameteri (target pname param : GLenum)
  | glTexImage2D (target : GLenum) (level : Int) (internalformat : GLenum)
      (width height border : Int) (format type : GLenum) (pixels : List Nat)
  | glGenerateMipmap (target : GLenum)

section render
variable {K : Type} [Field K]

/-- The second translation vector of `render` (lines 336-338), with
`f = (float)currentTime * 0.3f`. -/
def orbit_offset (fns : MathFns K) (currentTime : K) : vec3 K :=
  let f := currentTime * 0.3
  ⟨fns.sinf (2.1 * f) * 0.5,
   fns.cosf (1.7 * f) * 0.5,
   fns.sinf (1.3 * f) * fns.cosf (1.5 * f) * 2.0⟩

/-- The value of `mv_matrix` when `render` uploads it (lines 334-345). -/
def mv_matrix (fns : MathFns K) (currentTime : K) : mat4 K :=
  let mv_matrix := translate (mat4.identity) ⟨0.0, 0.0, -4.0⟩
  let mv_matrix := translate mv_matrix (orbit_offset fns currentTime)
  let mv_matrix := rotate fns mv_matrix (radians fns (currentTime * 45.0)) ⟨0.0, 1.0, 0.0⟩
  let mv_matrix := rotate fns mv_matrix (radians fns (currentTime * 81.0)) ⟨1.0, 0.0, 0.0⟩
  mv_matrix

/-- The second argument of `glm::perspective` in `render` (line 350),
`(float) gl_width / (float) gl_height`: both conversions and the division
round to `float`. -/
def aspect (fns : MathFns K) (g : Globals) : K :=
  fns.fl (fns.fl (g.gl_width : K) / fns.fl (g.gl_height : K))

/-- The value of `proj_matrix` when `render` uploads it (lines 349-351):
`glm::perspective(glm::radians(50.0f), aspect, 0.1f, 1000.0f)`, the literals
and the product of `glm::radians` rounded to `float`. -/
def proj_matrix (fns : MathFns K) (g : Globals) : mat4 K :=
  perspective fns (fns.fl (radians fns (fns.fl 50.0))) (aspect fns g)
    (fns.fl 0.1) (fns.fl 1000.0)

/-- The function `render` (lines 320-355): the OpenGL calls it issues, in
order, in the global state `g` at time `currentTime`. -/
def render (fns : MathFns K) (g : Globals) (currentTime : K) : List (GLCall K) :=
  [ GLCall.glClear [GLenum.GL_COLOR_BUFFER_BIT, GLenum.GL_DEPTH_BUFFER_BIT],
    GLCall.glViewport 0 0 g.gl_width g.gl_height,
    GLCall.glUseProgram g.shader_program,
    GLCall.glBindVertexArray g.vao,
    GLCall.glBindTexture GLenum.GL_TEXTURE_2D g.texture,
    GLCall.glUniformMatrix4fv g.mv_location 1 false (mv_matrix fns currentTime),
    GLCall.glUniformMatrix4fv g.proj_location 1 false (proj_matrix fns g),
    GLCall.glDrawArrays GLenum.GL_TRIANGLES 0 36 ]

/-- The function `glfw_window_size_callback` (lines 363-367): the new global
state and the line it prints on standard output. -/
def glfw_window_size_callback (g : Globals) (width height : Int) : Globals × String :=
  ({ g with gl_width := width, gl_height := height },
   "New viewport: (width: " ++ toString width ++ ", height: " ++ toString height ++ ")\n")

end render

/-! ## The environment, `processInput` and `main` -/

/-- What `glfwPollEvents` can deliver to this program: a window-size
callback, or a close request (which sets the close flag of the window). -/
inductive WindowEvent where
  | size (width height : Int)
  | close
deriving DecidableEq, Repr

/-- Everything the program reads from outside: what GLFW, the GL driver and
the image decoder answer. The functions of `Nat` are indexed by the
iteration of the render loop, from 0. -/
structure Env (K : Type) where
  /-- Whether `glfwInit()` succeeds. -/
  glfwInit : Bool
  /-- Whether `glfwCreateWindow` returns a window (not `NULL`). -/
  glfwCreateWindow : Bool
  /-- The four strings `glGetString` returns. -/
  glGetString : GLenum → String
  /-- The names `glCreateShader` returns, by shader type. -/
  glCreateShader : GLenum → Nat
  /-- The name `glCreateProgram` returns. -/
  glCreateProgram : Nat
  /-- The name `glGenVertexArrays` writes. -/
  glGenVertexArrays : Nat
  /-- The two names `glGenBuffers` writes. -/
  glGenBuffers : Nat × Nat
  /-- The location `glGetUniformLocation` returns, by uniform name. -/
  glGetUniformLocation : String → Int
  /-- The name `glGenTextures` writes. -/
  glGenTextures : Nat
  /-- The result of `stbi_load("texture.jpg", ...)`: `none` is `NULL`. -/
  stbi_load : Option Image
  /-- Whether `glfwGetKey(window, GLFW_KEY_ESCAPE)` is `GLFW_PRESS` in
  iteration `i`. -/
  escapePressed : Nat → Bool
  /-- The value of `glfwGetTime()` in iteration `i`. -/
  glfwGetTime : Nat → K
  /-- The events `glfwPollEvents()` delivers in iteration `i`. -/
  glfwPollEvents : Nat → List WindowEvent

/-- The calls of `main` outside the render loop. -/
inductive Call (K : Type) where
  | gl (c : GLCall K)
  | glfwInit
  | glfwCreateWindow (width height : Int) (title : String)
  | glfwTerminate
  | glfwSetWindowSizeCallback
  | glfwMakeContextCurrent
  | glewInit
  | stbi_load (filename : String)
  | stbi_image_free

/-- The four statements of the body of the render loop (lines 306-312), as
executed: `processInput` with whether it called
`glfwSetWindowShouldClose(window, 1)`, `render` with its argument and the
OpenGL calls it issued, `glfwSwapBuffers`, and `glfwPollEvents` with the
events it delivered. -/
inductive LoopStep (K : Type) where
  | processInput (setShouldClose : Bool)
  | render (currentTime : K) (calls : List (GLCall K))
  | glfwSwapBuffers
  | glfwPollEvents (events : List WindowEvent)

/-- The state of the running process: the globals, the close flag of the
window, what was written to standard output and standard error, and the
calls made so far (outside the loop, and inside it). -/
structure Proc (K : Type) where
  g : Globals := {}
  shouldClose : Bool := false
  stdout : List String := []
  stderr : List String := []
  calls : List (Call K) := []
  steps : List (LoopStep K) := []

section main
variable {K : Type} [Field K]

/-- The function `processInput` (lines 357-360): if the Escape key reads as
pressed, set the close flag of the window. -/
def processInput (escapePressed : Bool) (p : Proc K) : Proc K :=
  if escapePressed then
    { p with shouldClose := true, steps := p.steps ++ [LoopStep.processInput true] }
  else
    { p with steps := p.steps ++ [LoopStep.processInput false] }

/-- One event delivered by `glfwPollEvents`: a size event runs
`glfw_window_size_callback` (registered at line 52), a close request sets
the close flag. -/
def deliver (p : Proc K) (e : WindowEvent) : Proc K :=
  match e with
  | WindowEvent.size width height =>
    let r := glfw_window_size_callback p.g width height
    { p with g := r.1, stdout := p.stdout ++ [r.2] }
  | WindowEvent.close => { p with shouldClose := true }

/-- The body of the render loop (lines 306-312), iteration `i`. -/
def loopBody (fns : MathFns K) (env : Env K) (i : Nat) (p : Proc K) : Proc K :=
  let p := processInput (env.escapePressed i) p
  let p := { p with steps := p.steps ++
    [LoopStep.render (env.glfwGetTime i) (render fns p.g (env.glfwGetTime i))] }
  let p := { p with steps := p.steps ++ [LoopStep.glfwSwapBuffers] }
  let p := { p with steps := p.steps ++ [LoopStep.glfwPollEvents (env.glfwPollEvents i)] }
  (env.glfwPollEvents i).foldl deliver p

/-- The render loop `while(!glfwWindowShouldClose(window)) ...` (lines
304-313) from iteration `i` on; `none` when `fuel` iterations do not reach a
set close flag. -/
def renderLoop (fns : MathFns K) (env : Env K) : Nat → Nat → Proc K → Option (Proc K)
  | 0, _, _ => none
  | fuel + 1, i, p =>
    if p.shouldClose then some p
    else renderLoop fns env fuel (i + 1) (loopBody fns env i p)

/-- Append OpenGL calls to the calls made outside the loop. -/
def Proc.gl (p : Proc K) (cs : List (GLCall K)) : Proc K :=
  { p with calls := p.calls ++ cs.map Call.gl }

/-- The part of `main` from `glfwSetWindowSizeCallback` to the texture
parameters (lines 52-289): context, version report, depth test, shader
program, vertex array and buffers, uniform locations, texture object. -/
def setup (env : Env K) (p : Proc K) : Proc K :=
  let p := { p with calls := p.calls ++
    [Call.glfwSetWindowSizeCallback, Call.glfwMakeContextCurrent, Call.glewInit] }
  let p := p.gl [GLCall.glGetString GLenum.GL_VENDOR, GLCall.glGetString GLenum.GL_RENDERER,
    GLCall.glGetString GLenum.GL_VERSION,
    GLCall.glGetString GLenum.GL_SHADING_LANGUAGE_VERSION]
  let p := { p with stdout := p.stdout ++
    [ "Vendor: " ++ env.glGetString GLenum.GL_VENDOR ++ "\n",
      "Renderer: " ++ env.glGetString GLenum.GL_RENDERER ++ "\n",
      "OpenGL version supported " ++ env.glGetString GLenum.GL_VERSION ++ "\n",
      "GLSL version supported " ++ env.glGetString GLenum.GL_SHADING_LANGUAGE_VERSION
        ++ "\n",
      "Starting viewport: (width: " ++ toString p.g.gl_width ++ ", height: "
        ++ toString p.g.gl_height ++ ")\n" ] }
  let p := p.gl [GLCall.glEnable GLenum.GL_DEPTH_TEST, GLCall.glDepthFunc GLenum.GL_LESS]
  let vs := env.glCreateShader GLenum.GL_VERTEX_SHADER
  let fs := env.glCreateShader GLenum.GL_FRAGMENT_SHADER
  let p := p.gl [GLCall.glCreateShader GLenum.GL_VERTEX_SHADER,
    GLCall.glShaderSource vs 1 ShaderSource.vertex_shader, GLCall.glCompileShader vs,
    GLCall.glCreateShader GLenum.GL_FRAGMENT_SHADER,
    GLCall.glShaderSource fs 1 ShaderSource.fragment_shader, GLCall.glCompileShader fs]
  let p := { p with g := { p.g with shader_program := env.glCreateProgram } }
  let p := p.gl [GLCall.glCreateProgram,
    GLCall.glAttachShader p.g.shader_program fs, GLCall.glAttachShader p.g.shader_program vs,
    GLCall.glLinkProgram p.g.shader_program,
    GLCall.glDeleteShader vs, GLCall.glDeleteShader fs]
  let p := { p with g := { p.g with vao := env.glGenVertexArrays } }
  let p := p.gl [GLCall.glGenVertexArrays 1, GLCall.glBindVertexArray p.g.vao]
  let vbo := env.glGenBuffers
  let p := p.gl [GLCall.glGenBuffers 2,
    GLCall.glBindBuffer GLenum.GL_ARRAY_BUFFER vbo.1,
    GLCall.glBufferData GLenum.GL_ARRAY_BUFFER vertex_positions GLenum.GL_STATIC_DRAW,
    GLCall.glVertexAttribPointer 0 3 GLenum.GL_FLOAT false 0,
    GLCall.glEnableVertexAttribArray 0,
    GLCall.glBindBuffer GLenum.GL_ARRAY_BUFFER vbo.2,
    GLCall.glBufferData GLenum.GL_ARRAY_BUFFER texCoords GLenum.GL_STATIC_DRAW,
    GLCall.glVertexAttribPointer 1 2 GLenum.GL_FLOAT false 0,
    GLCall.glEnableVertexAttribArray 1,
    GLCall.glBindBuffer GLenum.GL_ARRAY_BUFFER 0,
    GLCall.glBindVertexArray 0]
  let p := { p with g := { p.g with
    mv_location := env.glGetUniformLocation "mv_matrix",
    proj_location := env.glGetUniformLocation "proj_matrix" } }
  let p := p.gl [GLCall.glGetUniformLocation p.g.shader_program "mv_matrix",
    GLCall.glGetUniformLocation p.g.shader_program "proj_matrix"]
  let p := { p with g := { p.g with texture := env.glGenTextures } }
  p.gl [GLCall.glGenTextures 1, GLCall.glBindTexture GLenum.GL_TEXTURE_2D p.g.texture,
    GLCall.glTexParameteri GLenum.GL_TEXTURE_2D GLenum.GL_TEXTURE_WRAP_S
      GLenum.GL_CLAMP_TO_BORDER,
    GLCall.glTexParameteri GLenum.GL_TEXTURE_2D GLenum.GL_TEXTURE_WRAP_T
      GLenum.GL_CLAMP_TO_BORDER,
    GLCall.glTexParameteri GLenum.GL_TEXTURE_2D GLenum.GL_TEXTURE_MIN_FILTER GLenum.GL_LINEAR,
    GLCall.glTexParameteri GLenum.GL_TEXTURE_2D GLenum.GL_TEXTURE_MAG_FILTER GLenum.GL_LINEAR]

/-- The texture load of `main` (lines 291-300): decode `texture.jpg`; upload
it and generate mipmaps if the decoder returned data, print a message on
standard output otherwise; free the buffer in both cases. -/
def loadTexture (env : Env K) (p : Proc K) : Proc K :=
  let p := { p with calls := p.calls ++ [Call.stbi_load "texture.jpg"] }
  let p :=
    match env.stbi_load with
    | some img =>
      p.gl [GLCall.glTexImage2D GLenum.GL_TEXTURE_2D 0 GLenum.GL_RGB img.width img.height 0
          GLenum.GL_RGB GLenum.GL_UNSIGNED_BYTE img.data,
        GLCall.glGenerateMipmap GLenum.GL_TEXTURE_2D]
    | none => { p with stdout := p.stdout ++ ["Failed to load texture\n"] }
  { p with calls := p.calls ++ [Call.stbi_image_free] }

/-- The function `main` (lines 34-318): the exit code and the final state of
the process; `none` when the render loop does not end within `fuel`
iterations. -/
def main (fns : MathFns K) (env : Env K) (fuel : Nat) : Option (Int × Proc K) :=
  let p : Proc K := { calls := [Call.glfwInit] }
  if !env.glfwInit then
    some (1, { p with stderr := p.stderr ++ ["ERROR: could not start GLFW3\n"] })
  else
    let p := { p with calls := p.calls ++
      [Call.glfwCreateWindow p.g.gl_width p.g.gl_height "My spinning cube"] }
    if !env.glfwCreateWindow then
      some (1, { p with
        stderr := p.stderr ++ ["ERROR: could not open window with GLFW3\n"],
        calls := p.calls ++ [Call.glfwTerminate] })
    else
      let p := setup env p
      let p := loadTexture env p
      match renderLoop fns env fuel 0 p with
      | none => none
      | some p => some (0, { p with calls := p.calls ++ [Call.glfwTerminate] })

end main

/-! ## Observations on traces -/

/-- The four phases of one iteration of the render loop. -/
inductive Phase where
  | pollInput | render | present | pollEvents
deriving DecidableEq, Repr

/-- The phase a step of the loop belongs to. -/
def LoopStep.phase {K : Type} : LoopStep K → Phase
  | LoopStep.processInput _ => Phase.pollInput
  | LoopStep.render _ _ => Phase.render
  | LoopStep.glfwSwapBuffers => Phase.present
  | LoopStep.glfwPollEvents _ => Phase.pollEvents

/-- One full iteration: poll input, render, present, poll OS events. -/
def fullIteration : List Phase :=
  [Phase.pollInput, Phase.render, Phase.present, Phase.pollEvents]

/-- The steps executed after the first `processInput` that set the close
flag (empty if there is none). -/
def afterFlagSet {K : Type} : List (LoopStep K) → List (LoopStep K)
  | [] => []
  | LoopStep.processInput true :: rest => rest
  | _ :: rest => afterFlagSet rest

/-- The state at the top of the render loop after `n` iterations of its body
(the state the `n`-th test of the loop condition sees, if the loop runs that
long), starting from the state `main` enters the loop with. -/
def loopState {K : Type} [Field K] (fns : MathFns K) (env : Env K) : Nat → Proc K
  | 0 => loadTexture env (setup env { calls :=
      [Call.glfwInit, Call.glfwCreateWindow 640 480 "My spinning cube"] })
  | n + 1 => loopBody fns env n (loopState fns env n)

/-- A call that uploads pixels to the texture. -/
def Call.isTexImage {K : Type} : Call K → Bool
  | Call.gl (GLCall.glTexImage2D _ _ _ _ _ _ _ _ _) => true
  | _ => false

/-! ## Concrete environments, for evaluating the model -/

/-- Stand-ins for the libm functions (the values of `sin`, `cos`, `tan`,
`1/sqrt` at 0, 0, pi/4, 1) in the `float` reading: enough to run the model on
concrete inputs. -/
def sampleFns : MathFns ℚ :=
  float32Fns (fun _ => 0) (fun _ => 1) (fun _ => 1) (fun _ => 1)

/-- An environment in which GLFW starts, the window opens, the decoder
returns `texture`, and the loop sees the given key states and events. -/
def sampleEnv (texture : Option Image) (escapePressed : Nat → Bool)
    (events : Nat → List WindowEvent) : Env ℚ :=
  { glfwInit := true
    glfwCreateWindow := true
    glGetString := fun _ => "string"
    glCreateShader := fun t => if t = GLenum.GL_VERTEX_SHADER then 1 else 2
    glCreateProgram := 3
    glGenVertexArrays := 1
    glGenBuffers := (1, 2)
    glGetUniformLocation := fun n => if n = "mv_matrix" then 0 else 1
    glGenTextures := 1
    stbi_load := texture
    escapePressed := escapePressed
    glfwGetTime := fun i => i
    glfwPollEvents := events }

end SpinningCube

namespace SpinningCube

/-- C4: `texCoords` has exactly 36 (u,v) entries (72 floats); the entries with
both coordinates in `[0,1]` are exactly those of indices 12 to 17 (six
consecutive entries, the triangles 4 and 5 counted from 0, i.e. the 5th and
6th, which are the two triangles of the face `z = 0.25`), and every one of
the other 30 entries equals `(-1,-1)`. -/
theorem texCoords_layout :
    texCoords.length = 2 * 36 ∧
    (∀ i : Fin 36, inUnitSquare (texCoord i) ↔ 12 ≤ i.val ∧ i.val ≤ 17) ∧
    ((List.range 36).filter (fun i => decide (inUnitSquare (texCoord i)))
      = [12, 13, 14, 15, 16, 17]) ∧
    (∀ i : Fin 36, ¬ (12 ≤ i.val ∧ i.val ≤ 17) → texCoord i = (-1, -1)) ∧
    ((List.range 36).filter (fun i => decide (texCoord i = (-1, -1)))).length = 30 ∧
    faceTriangles 2 0.25 = [4, 5] ∧
    (faceTriangles 2 0.25).flatMap (fun k => [3 * k, 3 * k + 1, 3 * k + 2])
      = [12, 13, 14, 15, 16, 17] := by
  refine ⟨by decide, by decide!, by decide!, by decide!, by decide!, by decide!, by decide!⟩

/-- The face `x = 0.25` is the union of the triangles 2 and 3. -/
theorem face_union_x_pos (p : ℚ × ℚ × ℚ) :
    onFace 0 (0.25) p ↔ ∃ k ∈ faceTriangles 0 (0.25), inTriangle (triangle k) p := by
  obtain ⟨x, y, z⟩ := p
  have hft : faceTriangles 0 (0.25) = [2, 3] := by decide!
  have t2 : triangle 2 = [(0.25, -0.25, -0.25), (0.25, 0.25, -0.25), (0.25, -0.25, 0.25)] := by
    decide!
  have t3 : triangle 3 = [(0.25, 0.25, 0.25), (0.25, -0.25, 0.25), (0.25, 0.25, -0.25)] := by
    decide!
  constructor
  · rintro ⟨hs, hb⟩
    have hx := hb 0
    have hy := hb 1
    have hz := hb 2
    simp [coord] at hs hx hy hz
    norm_num at hs hx hy hz
    by_cases h : 0 ≤ 1 - 2 * (y - (-0.25)) - 2 * (z - (-0.25))
    · refine ⟨2, by simp [hft], ?_⟩
      rw [t2]
      norm_num at h
      refine ⟨1 - 2 * (y - (-0.25)) - 2 * (z - (-0.25)), 2 * (y - (-0.25)), 2 * (z - (-0.25)),
        by norm_num; linarith, by norm_num; linarith, by norm_num; linarith, by ring, ?_⟩
      simp only [Prod.mk.injEq]
      norm_num
      refine ⟨by linarith, by linarith, by linarith⟩
    · refine ⟨3, by simp [hft], ?_⟩
      rw [t3]
      push_neg at h
      norm_num at h
      refine ⟨1 - -2 * (y - (0.25)) - -2 * (z - (0.25)), -2 * (y - (0.25)), -2 * (z - (0.25)),
        by norm_num; linarith, by norm_num; linarith, by norm_num; linarith, by ring, ?_⟩
      simp only [Prod.mk.injEq]
      norm_num
      refine ⟨by linarith, by linarith, by linarith⟩
  · rintro ⟨k, hk, hin⟩
    rw [hft] at hk
    simp only [List.mem_cons, List.mem_singleton, List.not_mem_nil, or_false] at hk
    rcases hk with rfl | rfl
    · rw [t2] at hin
      obtain ⟨α, β, γ, hα, hβ, hγ, hsum, hp⟩ := hin
      simp only [Prod.mk.injEq] at hp
      obtain ⟨rfl, rfl, rfl⟩ := hp
      refine ⟨?_, ?_⟩
      · simp [coord]
        norm_num
        linarith
      · intro b
        fin_cases b <;> simp [coord] <;> norm_num <;> constructor <;> linarith
    · rw [t3] at hin
      obtain ⟨α, β, γ, hα, hβ, hγ, hsum, hp⟩ := hin
      simp only [Prod.mk.injEq] at hp
      obtain ⟨rfl, rfl, rfl⟩ := hp
      refine ⟨?_, ?_⟩
      · simp [coord]
        norm_num
        linarith
      · intro b
        fin_cases b <;> simp [coord] <;> norm_num <;> constructor <;> linarith

/-- The face `x = -0.25` is the union of the triangles 6 and 7. -/
theorem face_union_x_neg (p : ℚ × ℚ × ℚ) :
    onFace 0 (-0.25) p ↔ ∃ k ∈ faceTriangles 0 (-0.25), inTriangle (triangle k) p := by
  obtain ⟨x, y, z⟩ := p
  have hft : faceTriangles 0 (-0.25) = [6, 7] := by decide!
  have t6 : triangle 6 = [(-0.25, -0.25, 0.25), (-0.25, 0.25, 0.25), (-0.25, -0.25, -0.25)] := by
    decide!
  have t7 : triangle 7 = [(-0.25, 0.25, -0.25), (-0.25, -0.25, -0.25), (-0.25, 0.25, 0.25)] := by
    decide!
  constructor
  · rintro ⟨hs, hb⟩
    have hx := hb 0
    have hy := hb 1
    have hz := hb 2
    simp [coord] at hs hx hy hz
    norm_num at hs hx hy hz
    by_cases h : 0 ≤ 1 - 2 * (y - (-0.25)) - -2 * (z - (0.25))
    · refine ⟨6, by simp [hft], ?_⟩
      rw [t6]
      norm_num at h
      refine ⟨1 - 2 * (y - (-0.25)) - -2 * (z - (0.25)), 2 * (y - (-0.25)), -2 * (z - (0.25)),
        by norm_num; linarith, by norm_num; linarith, by norm_num; linarith, by ring, ?_⟩
      simp only [Prod.mk.injEq]
      norm_num
      refine ⟨by linarith, by linarith, by linarith⟩
    · refine ⟨7, by simp [hft], ?_⟩
      rw [t7]
      push_neg at h
      norm_num at h
      refine ⟨1 - -2 * (y - (0.25)) - 2 * (z - (-0.25)), -2 * (y - (0.25)), 2 * (z - (-0.25)),
        by norm_num; linarith, by norm_num; linarith, by norm_num; linarith, by ring, ?_⟩
      simp only [Prod.mk.injEq]
      norm_num
      refine ⟨by linarith, by linarith, by linarith⟩
  · rintro ⟨k, hk, hin⟩
    rw [hft] at hk
    simp only [List.mem_cons, List.mem_singleton, List.not_mem_nil, or_false] at hk
    rcases hk with rfl | rfl
    · rw [t6] at hin
      obtain ⟨α, β, γ, hα, hβ, hγ, hsum, hp⟩ := hin
      simp only [Prod.mk.injEq] at hp
      obtain ⟨rfl, rfl, rfl⟩ := hp
      refine ⟨?_, ?_⟩
      · simp [coord]
        norm_num
        linarith
      · intro b
        fin_cases b <;> simp [coord] <;> norm_num <;> constructor <;> linarith
    · rw [t7] at hin
      obtain ⟨α, β, γ, hα, hβ, hγ, hsum, hp⟩ := hin
      simp only [Prod.mk.injEq] at hp
      obtain ⟨rfl, rfl, rfl⟩ := hp
      refine ⟨?_, ?_⟩
      · simp [coord]
        norm_num
        linarith
      · intro b
        fin_cases b <;> simp [coord] <;> norm_num <;> constructor <;> linarith

/-- The face `y = 0.25` is the union of the triangles 10 and 11. -/
theorem face_union_y_pos (p : ℚ × ℚ × ℚ) :
    onFace 1 (0.25) p ↔ ∃ k ∈ faceTriangles 1 (0.25), inTriangle (triangle k) p := by
  obtain ⟨x, y, z⟩ := p
  have hft : faceTriangles 1 (0.25) = [10, 11] := by decide!
  have t10 : triangle 10 = [(0.25, 0.25, 0.25), (0.25, 0.25, -0.25), (-0.25, 0.25, 0.25)] := by
    decide!
  have t11 : triangle 11 = [(-0.25, 0.25, -0.25), (-0.25, 0.25, 0.25), (0.25, 0.25, -0.25)] := by
    decide!
  constructor
  · rintro ⟨hs, hb⟩
    have hx := hb 0
    have hy := hb 1
    have hz := hb 2
    simp [coord] at hs hx hy hz
    norm_num at hs hx hy hz
    by_cases h : 0 ≤ 1 - -2 * (z - (0.25)) - -2 * (x - (0.25))
    · refine ⟨10, by simp [hft], ?_⟩
      rw [t10]
      norm_num at h
      refine ⟨1 - -2 * (z - (0.25)) - -2 * (x - (0.25)), -2 * (z - (0.25)), -2 * (x - (0.25)),
        by norm_num; linarith, by norm_num; linarith, by norm_num; linarith, by ring, ?_⟩
      simp only [Prod.mk.injEq]
      norm_num
      refine ⟨by linarith, by linarith, by linarith⟩
    · refine ⟨11, by simp [hft], ?_⟩
      rw [t11]
      push_neg at h
      norm_num at h
      refine ⟨1 - 2 * (z - (-0.25)) - 2 * (x - (-0.25)), 2 * (z - (-0.25)), 2 * (x - (-0.25)),
        by norm_num; linarith, by norm_num; linarith, by norm_num; linarith, by ring, ?_⟩
      simp only [Prod.mk.injEq]
      norm_num
      refine ⟨by linarith, by linarith, by linarith⟩
  · rintro ⟨k, hk, hin⟩
    rw [hft] at hk
    simp only [List.mem_cons, List.mem_singleton, List.not_mem_nil, or_false] at hk
    rcases hk with rfl | rfl
    · rw [t10] at hin
      obtain ⟨α, β, γ, hα, hβ, hγ, hsum, hp⟩ := hin
      simp only [Prod.mk.injEq] at hp
      obtain ⟨rfl, rfl, rfl⟩ := hp
      refine ⟨?_, ?_⟩
      · simp [coord]
        norm_num
        linarith
      · intro b
        fin_cases b <;> simp [coord] <;> norm_num <;> constructor <;> linarith
    · rw [t11] at hin
      obtain ⟨α, β, γ, hα, hβ, hγ, hsum, hp⟩ := hin
      simp only [Prod.mk.injEq] at hp
      obtain ⟨rfl, rfl, rfl⟩ := hp
      refine ⟨?_, ?_⟩
      · simp [coord]
        norm_num
        linarith
      · intro b
        fin_cases b <;> simp [coord] <;> norm_num <;> constructor <;> linarith

/-- The face `y = -0.25` is the union of the triangles 8 and 9. -/
theorem face_union_y_neg (p : ℚ × ℚ × ℚ) :
    onFace 1 (-0.25) p ↔ ∃ k ∈ faceTriangles 1 (-0.25), inTriangle (triangle k) p := by
  obtain ⟨x, y, z⟩ := p
  have hft : faceTriangles 1 (-0.25) = [8, 9] := by decide!
  have t8 : triangle 8 = [(0.25, -0.25, -0.25), (0.25, -0.25, 0.25), (-0.25, -0.25, -0.25)] := by
    decide!
  have t9 : triangle 9 = [(-0.25, -0.25, 0.25), (-0.25, -0.25, -0.25), (0.25, -0.25, 0.25)] := by
    decide!
  constructor
  · rintro ⟨hs, hb⟩
    have hx := hb 0
    have hy := hb 1
    have hz := hb 2
    simp [coord] at hs hx hy hz
    norm_num at hs hx hy hz
    by_cases h : 0 ≤ 1 - 2 * (z - (-0.25)) - -2 * (x - (0.25))
    · refine ⟨8, by simp [hft], ?_⟩
      rw [t8]
      norm_num at h
      refine ⟨1 - 2 * (z - (-0.25)) - -2 * (x - (0.25)), 2 * (z - (-0.25)), -2 * (x - (0.25)),
        by norm_num; linarith, by norm_num; linarith, by norm_num; linarith, by ring, ?_⟩
      simp only [Prod.mk.injEq]
      norm_num
      refine ⟨by linarith, by linarith, by linarith⟩
    · refine ⟨9, by simp [hft], ?_⟩
      rw [t9]
      push_neg at h
      norm_num at h
      refine ⟨1 - -2 * (z - (0.25)) - 2 * (x - (-0.25)), -2 * (z - (0.25)), 2 * (x - (-0.25)),
        by norm_num; linarith, by norm_num; linarith, by norm_num; linarith, by ring, ?_⟩
      simp only [Prod.mk.injEq]
      norm_num
      refine ⟨by linarith, by linarith, by linarith⟩
  · rintro ⟨k, hk, hin⟩
    rw [hft] at hk
    simp only [List.mem_cons, List.mem_singleton, List.not_mem_nil, or_false] at hk
    rcases hk with rfl | rfl
    · rw [t8] at hin
      obtain ⟨α, β, γ, hα, hβ, hγ, hsum, hp⟩ := hin
      simp only [Prod.mk.injEq] at hp
      obtain ⟨rfl, rfl, rfl⟩ := hp
      refine ⟨?_, ?_⟩
      · simp [coord]
        norm_num
        linarith
      · intro b
        fin_cases b <;> simp [coord] <;> norm_num <;> constructor <;> linarith
    · rw [t9] at hin
      obtain ⟨α, β, γ, hα, hβ, hγ, hsum, hp⟩ := hin
      simp only [Prod.mk.injEq] at hp
      obtain ⟨rfl, rfl, rfl⟩ := hp
      refine ⟨?_, ?_⟩
      · simp [coord]
        norm_num
        linarith
      · intro b
        fin_cases b <;> simp [coord] <;> norm_num <;> constructor <;> linarith

/-- The face `z = 0.25` is the union of the triangles 4 and 5. -/
theorem face_union_z_pos (p : ℚ × ℚ × ℚ) :
    onFace 2 (0.25) p ↔ ∃ k ∈ faceTriangles 2 (0.25), inTriangle (triangle k) p := by
  obtain ⟨x, y, z⟩ := p
  have hft : faceTriangles 2 (0.25) = [4, 5] := by decide!
  have t4 : triangle 4 = [(0.25, -0.25, 0.25), (0.25, 0.25, 0.25), (-0.25, -0.25, 0.25)] := by
    decide!
  have t5 : triangle 5 = [(-0.25, 0.25, 0.25), (-0.25, -0.25, 0.25), (0.25, 0.25, 0.25)] := by
    decide!
  constructor
  · rintro ⟨hs, hb⟩
    have hx := hb 0
    have hy := hb 1
    have hz := hb 2
    simp [coord] at hs hx hy hz
    norm_num at hs hx hy hz
    by_cases h : 0 ≤ 1 - 2 * (y - (-0.25)) - -2 * (x - (0.25))
    · refine ⟨4, by simp [hft], ?_⟩
      rw [t4]
      norm_num at h
      refine ⟨1 - 2 * (y - (-0.25)) - -2 * (x - (0.25)), 2 * (y - (-0.25)), -2 * (x - (0.25)),
        by norm_num; linarith, by norm_num; linarith, by norm_num; linarith, by ring, ?_⟩
      simp only [Prod.mk.injEq]
      norm_num
      refine ⟨by linarith, by linarith, by linarith⟩
    · refine ⟨5, by simp [hft], ?_⟩
      rw [t5]
      push_neg at h
      norm_num at h
      refine ⟨1 - -2 * (y - (0.25)) - 2 * (x - (-0.25)), -2 * (y - (0.25)), 2 * (x - (-0.25)),
        by norm_num; linarith, by norm_num; linarith, by norm_num; linarith, by ring, ?_⟩
      simp only [Prod.mk.injEq]
      norm_num
      refine ⟨by linarith, by linarith, by linarith⟩
  · rintro ⟨k, hk, hin⟩
    rw [hft] at hk
    simp only [List.mem_cons, List.mem_singleton, List.not_mem_nil, or_false] at hk
    rcases hk with rfl | rfl
    · rw [t4] at hin
      obtain ⟨α, β, γ, hα, hβ, hγ, hsum, hp⟩ := hin
      simp only [Prod.mk.injEq] at hp
      obtain ⟨rfl, rfl, rfl⟩ := hp
      refine ⟨?_, ?_⟩
      · simp [coord]
        norm_num
        linarith
      · intro b
        fin_cases b <;> simp [coord] <;> norm_num <;> constructor <;> linarith
    · rw [t5] at hin
      obtain ⟨α, β, γ, hα, hβ, hγ, hsum, hp⟩ := hin
      simp only [Prod.mk.injEq] at hp
      obtain ⟨rfl, rfl, rfl⟩ := hp
      refine ⟨?_, ?_⟩
      · simp [coord]
        norm_num
        linarith
      · intro b
        fin_cases b <;> simp [coord] <;> norm_num <;> constructor <;> linarith

/-- The face `z = -0.25` is the union of the triangles 0 and 1. -/
theorem face_union_z_neg (p : ℚ × ℚ × ℚ) :
    onFace 2 (-0.25) p ↔ ∃ k ∈ faceTriangles 2 (-0.25), inTriangle (triangle k) p := by
  obtain ⟨x, y, z⟩ := p
  have hft : faceTriangles 2 (-0.25) = [0, 1] := by decide!
  have t0 : triangle 0 = [(-0.25, -0.25, -0.25), (-0.25, 0.25, -0.25), (0.25, -0.25, -0.25)] := by
    decide!
  have t1 : triangle 1 = [(0.25, 0.25, -0.25), (0.25, -0.25, -0.25), (-0.25, 0.25, -0.25)] := by
    decide!
  constructor
  · rintro ⟨hs, hb⟩
    have hx := hb 0
    have hy := hb 1
    have hz := hb 2
    simp [coord] at hs hx hy hz
    norm_num at hs hx hy hz
    by_cases h : 0 ≤ 1 - 2 * (y - (-0.25)) - 2 * (x - (-0.25))
    · refine ⟨0, by simp [hft], ?_⟩
      rw [t0]
      norm_num at h
      refine ⟨1 - 2 * (y - (-0.25)) - 2 * (x - (-0.25)), 2 * (y - (-0.25)), 2 * (x - (-0.25)),
        by norm_num; linarith, by norm_num; linarith, by norm_num; linarith, by ring, ?_⟩
      simp only [Prod.mk.injEq]
      norm_num
      refine ⟨by linarith, by linarith, by linarith⟩
    · refine ⟨1, by simp [hft], ?_⟩
      rw [t1]
      push_neg at h
      norm_num at h
      refine ⟨1 - -2 * (y - (0.25)) - -2 * (x - (0.25)), -2 * (y - (0.25)), -2 * (x - (0.25)),
        by norm_num; linarith, by norm_num; linarith, by norm_num; linarith, by ring, ?_⟩
      simp only [Prod.mk.injEq]
      norm_num
      refine ⟨by linarith, by linarith, by linarith⟩
  · rintro ⟨k, hk, hin⟩
    rw [hft] at hk
    simp only [List.mem_cons, List.mem_singleton, List.not_mem_nil, or_false] at hk
    rcases hk with rfl | rfl
    · rw [t0] at hin
      obtain ⟨α, β, γ, hα, hβ, hγ, hsum, hp⟩ := hin
      simp only [Prod.mk.injEq] at hp
      obtain ⟨rfl, rfl, rfl⟩ := hp
      refine ⟨?_, ?_⟩
      · simp [coord]
        norm_num
        linarith
      · intro b
        fin_cases b <;> simp [coord] <;> norm_num <;> constructor <;> linarith
    · rw [t1] at hin
      obtain ⟨α, β, γ, hα, hβ, hγ, hsum, hp⟩ := hin
      simp only [Prod.mk.injEq] at hp
      obtain ⟨rfl, rfl, rfl⟩ := hp
      refine ⟨?_, ?_⟩
      · simp [coord]
        norm_num
        linarith
      · intro b
        fin_cases b <;> simp [coord] <;> norm_num <;> constructor <;> linarith

/-- C5: `vertex_positions` holds 108 floats, i.e. 36 vertices in 12
consecutive triples, all of which the draw call of `render`,
`glDrawArrays(GL_TRIANGLES, 0, 36)`, consumes; every coordinate is `0.25` or
`-0.25`; every triangle has three pairwise distinct vertices lying in one
face plane of the cube; each of the 6 face planes contains exactly 2 of the
triangles, whose vertices together are exactly the 4 corners of that face;
and these 2 triangles cover the face: the solid face is exactly the union of
the two solid triangles. -/
theorem vertex_positions_cube :
    vertex_positions.length = 108 ∧ 108 = 3 * 36 ∧ 36 = 12 * 3 ∧
    (∀ (K : Type) [Field K] (fns : MathFns K) (g : Globals) (t : K),
      (render fns g t).getLast? = some (GLCall.glDrawArrays GLenum.GL_TRIANGLES 0 36)) ∧
    (∀ c ∈ vertex_positions, c = 0.25 ∨ c = -0.25) ∧
    (∀ k : Fin 12, (triangle k).Nodup ∧ (triangle k).length = 3 ∧
      ∃ a : Fin 3, ∃ s ∈ ({0.25, -0.25} : Finset ℚ), inFace a s k = true) ∧
    (∀ a : Fin 3, ∀ s ∈ ({0.25, -0.25} : Finset ℚ),
      (faceTriangles a s).length = 2 ∧
      ((faceTriangles a s).flatMap triangle).toFinset = faceCorners a s ∧
      (faceCorners a s).card = 4) ∧
    (∀ a : Fin 3, ∀ s ∈ ({0.25, -0.25} : Finset ℚ), ∀ p : ℚ × ℚ × ℚ,
      onFace a s p ↔ ∃ k ∈ faceTriangles a s, inTriangle (triangle k) p) := by
  refine ⟨by decide, by decide, by decide, fun _ _ _ _ _ => rfl, by decide!, by decide!,
    by decide!, ?_⟩
  intro a s hs p
  have hs2 : s = 0.25 ∨ s = -0.25 := by simpa using hs
  fin_cases a <;> rcases hs2 with rfl | rfl
  · exact face_union_x_pos p
  · exact face_union_x_neg p
  · exact face_union_y_pos p
  · exact face_union_y_neg p
  · exact face_union_z_pos p
  · exact face_union_z_neg p

/-- C10: the six vertices whose texture coordinate is not the sentinel
`(-1,-1)` are those of indices 12 to 17; all of them lie on the face
`z = 0.25`, and for each `(u, v) = (2x + 0.5, 2y + 0.5)` where `(x, y, z)` is
the position at the same index. Hence two of these vertices at the same
position carry the same texture coordinate, and the four corners of the face
are all present and map onto the four corners of the unit square. -/
theorem textured_face_agrees :
    (∀ i : Fin 36, texCoord i ≠ (-1, -1) ↔ 12 ≤ i.val ∧ i.val ≤ 17) ∧
    (∀ i : Fin 36, 12 ≤ i.val ∧ i.val ≤ 17 →
      (vertex i).2.2 = 0.25 ∧
      texCoord i = (2 * (vertex i).1 + 0.5, 2 * (vertex i).2.1 + 0.5)) ∧
    (∀ i j : Fin 36, 12 ≤ i.val ∧ i.val ≤ 17 → 12 ≤ j.val ∧ j.val ≤ 17 →
      vertex i = vertex j → texCoord i = texCoord j) ∧
    ((List.range' 12 6).map vertex).toFinset = faceCorners 2 0.25 ∧
    ((List.range' 12 6).map texCoord).toFinset
      = ({0, 1} : Finset ℚ) ×ˢ ({0, 1} : Finset ℚ) := by
  refine ⟨by decide!, by decide!, by decide!, by decide!, by decide!⟩

end SpinningCube

namespace SpinningCube

section glm_lemmas
variable {K : Type} [Field K]

omit [Field K] in
/-- The entries of the matrix a `mat4` denotes, row by row. -/
theorem toMatrix_eq (m : mat4 K) : m.toMatrix =
    !![m.c0.x, m.c1.x, m.c2.x, m.c3.x;
       m.c0.y, m.c1.y, m.c2.y, m.c3.y;
       m.c0.z, m.c1.z, m.c2.z, m.c3.z;
       m.c0.w, m.c1.w, m.c2.w, m.c3.w] := by
  ext i j
  fin_cases i <;> fin_cases j <;> rfl

/-- The constructor `glm::mat4(1.f)` denotes the identity matrix. -/
theorem toMatrix_identity : (mat4.identity : mat4 K).toMatrix = 1 := by
  ext i j
  fin_cases i <;> fin_cases j <;>
    simp [mat4.identity, mat4.toMatrix, mat4.col, vec4.get]

/-- The function `glm::translate` multiplies a translation matrix onto the
right of its argument. -/
theorem toMatrix_translate (m : mat4 K) (v : vec3 K) :
    (translate m v).toMatrix = m.toMatrix * specTranslation v.x v.y v.z := by
  rw [toMatrix_eq, toMatrix_eq, specTranslation]
  simp [translate, vec4.smul, vec4.add, add_assoc]

/-- The function `glm::rotate` about the axis `(0,1,0)` multiplies a rotation
about Y onto the right of its argument, provided `inversesqrt 1 = 1`. -/
theorem toMatrix_rotate_y (fns : MathFns K) (h : fns.inversesqrt 1 = 1)
    (m : mat4 K) (θ : K) :
    (rotate fns m θ ⟨0, 1, 0⟩).toMatrix = m.toMatrix * specRotationY fns θ := by
  rw [toMatrix_eq, toMatrix_eq, specRotationY]
  simp [rotate, normalize, h, vec4.smul, vec4.add]

/-- The function `glm::rotate` about the axis `(1,0,0)` multiplies a rotation
about X onto the right of its argument, provided `inversesqrt 1 = 1`. -/
theorem toMatrix_rotate_x (fns : MathFns K) (h : fns.inversesqrt 1 = 1)
    (m : mat4 K) (θ : K) :
    (rotate fns m θ ⟨1, 0, 0⟩).toMatrix = m.toMatrix * specRotationX fns θ := by
  rw [toMatrix_eq, toMatrix_eq, specRotationX]
  simp [rotate, normalize, h, vec4.smul, vec4.add]

end glm_lemmas

/-- Over the reals `inversesqrt(1) = 1`, so the unit axes `render` passes to
`glm::rotate` are left alone by `glm::normalize`. -/
theorem realFns_inversesqrt_one : realFns.inversesqrt 1 = 1 := by
  simp [realFns]

/-- C1: for every elapsed time `t` (and every global state), the sixth call of
`render` uploads to `mv_location`, untransposed, the matrix `mv_matrix`, and
over the reals that matrix is
`T(0,0,-4) * T(offset) * Ry(45 t degrees) * Rx(81 t degrees)` with
`offset = (sin(2.1 f) * 0.5, cos(1.7 f) * 0.5, sin(1.3 f) * cos(1.5 f) * 2.0)`
and `f = t * 0.3`: each transform is multiplied onto the right of the
running matrix. -/
theorem render_mv_matrix_eq (g : Globals) (t : ℝ) :
    (render realFns g t).get? 5
      = some (GLCall.glUniformMatrix4fv g.mv_location 1 false (mv_matrix realFns t)) ∧
    (mv_matrix realFns t).toMatrix
      = specTranslation 0 0 (-4)
        * specTranslation (Real.sin (2.1 * (t * 0.3)) * 0.5)
            (Real.cos (1.7 * (t * 0.3)) * 0.5)
            (Real.sin (1.3 * (t * 0.3)) * Real.cos (1.5 * (t * 0.3)) * 2.0)
        * specRotationY realFns (t * 45 * (Real.pi / 180))
        * specRotationX realFns (t * 81 * (Real.pi / 180)) := by
  refine ⟨rfl, ?_⟩
  have h0 : (0.0 : ℝ) = 0 := by norm_num
  have h1 : (1.0 : ℝ) = 1 := by norm_num
  have h4 : (4.0 : ℝ) = 4 := by norm_num
  have h45 : (45.0 : ℝ) = 45 := by norm_num
  have h81 : (81.0 : ℝ) = 81 := by norm_num
  unfold mv_matrix
  simp only [h0, h1, h4, h45, h81]
  rw [toMatrix_rotate_x realFns realFns_inversesqrt_one,
    toMatrix_rotate_y realFns realFns_inversesqrt_one,
    toMatrix_translate, toMatrix_translate, toMatrix_identity, one_mul]
  rfl

end SpinningCube

namespace SpinningCube

/-- C2: at time 0, over the reals, the orbit offset computed by `render` is
`(0, 0.5, 0)`, both rotation angles are 0, and the model-view matrix it
uploads is `translate(translate(I, (0,0,-4)), (0,0.5,0))`, i.e. the identity
rotation block with translation column `(0, 0.5, -4, 1)`. -/
theorem render_at_time_zero (g : Globals) :
    orbit_offset realFns 0 = ⟨0, 0.5, 0⟩ ∧
    radians realFns ((0 : ℝ) * 45.0) = 0 ∧
    radians realFns ((0 : ℝ) * 81.0) = 0 ∧
    mv_matrix realFns 0
      = translate (translate mat4.identity ⟨0, 0, -4⟩) ⟨0, 0.5, 0⟩ ∧
    mv_matrix realFns 0
      = ⟨⟨1, 0, 0, 0⟩, ⟨0, 1, 0, 0⟩, ⟨0, 0, 1, 0⟩, ⟨0, 0.5, -4, 1⟩⟩ ∧
    (render realFns g 0).get? 5
      = some (GLCall.glUniformMatrix4fv g.mv_location 1 false
          ⟨⟨1, 0, 0, 0⟩, ⟨0, 1, 0, 0⟩, ⟨0, 0, 1, 0⟩, ⟨0, 0.5, -4, 1⟩⟩) := by
  have hm : mv_matrix realFns 0
      = ⟨⟨1, 0, 0, 0⟩, ⟨0, 1, 0, 0⟩, ⟨0, 0, 1, 0⟩, ⟨0, 0.5, -4, 1⟩⟩ := by
    simp [mv_matrix, orbit_offset, translate, rotate, normalize, radians, realFns,
      mat4.identity, vec4.smul, vec4.add]
    norm_num
  refine ⟨?_, ?_, ?_, ?_, hm, ?_⟩
  · simp [orbit_offset, realFns]
  · simp [radians]
  · simp [radians]
  · rw [hm]
    simp [translate, mat4.identity, vec4.smul, vec4.add]
  · simp [render, hm]

end SpinningCube

namespace SpinningCube

/-- Rounding to nearest never goes below the floor. -/
theorem roundNearestEven_floor_le (s : ℚ) : ⌊s⌋ ≤ roundNearestEven s := by
  unfold roundNearestEven
  split_ifs <;> omega

/-- C6: for every `(w, h)`, `glfw_window_size_callback` sets
`(gl_width, gl_height)` to exactly `(w, h)` and changes no other global
(shader program, vertex array, uniform locations, texture), and the next
`render` sets the viewport to `(0, 0, w, h)`: its second call is
`glViewport(0, 0, w, h)` and it issues no other `glViewport`. So it is for
`(800, 600)` from the initial state. -/
theorem resize_callback_sets_viewport (g : Globals) (w h : Int) :
    (glfw_window_size_callback g w h).1.gl_width = w ∧
    (glfw_window_size_callback g w h).1.gl_height = h ∧
    (glfw_window_size_callback g w h).1.shader_program = g.shader_program ∧
    (glfw_window_size_callback g w h).1.vao = g.vao ∧
    (glfw_window_size_callback g w h).1.mv_location = g.mv_location ∧
    (glfw_window_size_callback g w h).1.proj_location = g.proj_location ∧
    (glfw_window_size_callback g w h).1.texture = g.texture ∧
    (∀ (K : Type) [Field K] (fns : MathFns K) (t : K),
      (render fns (glfw_window_size_callback g w h).1 t).get? 1
        = some (GLCall.glViewport 0 0 w h) ∧
      ∀ c ∈ render fns (glfw_window_size_callback g w h).1 t,
        ∀ x y a b, c = GLCall.glViewport x y a b → c = GLCall.glViewport 0 0 w h) ∧
    ((glfw_window_size_callback {} 800 600).1.gl_width,
      (glfw_window_size_callback {} 800 600).1.gl_height) = (800, 600) := by
  refine ⟨rfl, rfl, rfl, rfl, rfl, rfl, rfl, ?_, rfl⟩
  intro K _ fns t
  refine ⟨rfl, ?_⟩
  intro c hc x y a b hcv
  subst hcv
  simp [render, glfw_window_size_callback] at hc
  obtain ⟨rfl, rfl, rfl, rfl⟩ := hc
  rfl

end SpinningCube

namespace SpinningCube

section loop_lemmas
variable {K : Type} [Field K]

omit [Field K] in
/-- What delivering a list of events changes: only the viewport size, the
close flag and standard output. -/
theorem foldl_deliver_spec (evs : List WindowEvent) (p : Proc K) :
    (evs.foldl deliver p).calls = p.calls ∧
    (evs.foldl deliver p).steps = p.steps ∧
    (evs.foldl deliver p).stderr = p.stderr ∧
    (∀ s ∈ p.stdout, s ∈ (evs.foldl deliver p).stdout) ∧
    ((evs.foldl deliver p).shouldClose = true
      ↔ p.shouldClose = true ∨ WindowEvent.close ∈ evs) := by
  induction evs generalizing p with
  | nil => simp
  | cons e es ih =>
    obtain ⟨h1, h2, h3, h4, h5⟩ := ih (deliver p e)
    rw [List.foldl_cons]
    cases e with
    | size w h =>
      refine ⟨by rw [h1]; rfl, by rw [h2]; rfl, by rw [h3]; rfl, ?_, ?_⟩
      · intro s hs
        apply h4
        simp [deliver, hs]
      · rw [h5]
        simp [deliver]
    | close =>
      refine ⟨by rw [h1]; rfl, by rw [h2]; rfl, by rw [h3]; rfl, ?_, ?_⟩
      · intro s hs
        apply h4
        simpa [deliver] using hs
      · rw [h5]
        simp [deliver]

omit [Field K] in
/-- Delivering events with positive sizes keeps the stored size positive. -/
theorem foldl_deliver_pos (evs : List WindowEvent) (p : Proc K)
    (h0 : 0 < p.g.gl_width ∧ 0 < p.g.gl_height)
    (hpos : ∀ w h, WindowEvent.size w h ∈ evs → 0 < w ∧ 0 < h) :
    0 < (evs.foldl deliver p).g.gl_width ∧ 0 < (evs.foldl deliver p).g.gl_height := by
  induction evs generalizing p with
  | nil => simpa using h0
  | cons e es ih =>
    rw [List.foldl_cons]
    apply ih
    · cases e with
      | size w h =>
        have := hpos w h (by simp)
        simpa [deliver, glfw_window_size_callback] using this
      | close => simpa [deliver] using h0
    · intro w h hm
      exact hpos w h (by simp [hm])

/-- The steps one iteration appends, and what else it changes. -/
theorem loopBody_spec (fns : MathFns K) (env : Env K) (i : Nat) (p : Proc K) :
    (loopBody fns env i p).steps = p.steps ++
      [LoopStep.processInput (env.escapePressed i),
       LoopStep.render (env.glfwGetTime i) (render fns p.g (env.glfwGetTime i)),
       LoopStep.glfwSwapBuffers,
       LoopStep.glfwPollEvents (env.glfwPollEvents i)] ∧
    (loopBody fns env i p).calls = p.calls ∧
    (loopBody fns env i p).stderr = p.stderr ∧
    (∀ s ∈ p.stdout, s ∈ (loopBody fns env i p).stdout) ∧
    ((loopBody fns env i p).shouldClose = true
      ↔ p.shouldClose = true ∨ env.escapePressed i = true
        ∨ WindowEvent.close ∈ env.glfwPollEvents i) := by
  unfold loopBody
  simp only []
  generalize hq : ({ (processInput (env.escapePressed i) p) with
      steps := (processInput (env.escapePressed i) p).steps ++
        [LoopStep.render (env.glfwGetTime i)
          (render fns (processInput (env.escapePressed i) p).g (env.glfwGetTime i))] ++
        [LoopStep.glfwSwapBuffers] ++
        [LoopStep.glfwPollEvents (env.glfwPollEvents i)] } : Proc K) = q
  obtain ⟨h1, h2, h3, h4, h5⟩ := foldl_deliver_spec (env.glfwPollEvents i) q
  subst hq
  cases hesc : env.escapePressed i <;>
    simp [processInput, hesc] at h1 h2 h3 h4 h5 ⊢ <;>
    simp [h1, h2, h3, h5] <;> exact h4

/-- A finished run of the loop leaves the calls and standard error alone,
keeps what was on standard output, extends the steps and ends with the close
flag set. -/
theorem renderLoop_spec (fns : MathFns K) (env : Env K) (fuel : Nat) :
    ∀ (i : Nat) (p q : Proc K), renderLoop fns env fuel i p = some q →
      q.calls = p.calls ∧ q.stderr = p.stderr ∧
      (∀ s ∈ p.stdout, s ∈ q.stdout) ∧
      q.shouldClose = true ∧ p.steps <+: q.steps := by
  induction fuel with
  | zero => intro i p q h; simp [renderLoop] at h
  | succ f ih =>
    intro i p q h
    unfold renderLoop at h
    by_cases hc : p.shouldClose = true
    · simp only [hc, if_true, Option.some.injEq] at h
      subst h
      exact ⟨rfl, rfl, fun s hs => hs, hc, List.prefix_refl _⟩
    · simp only [hc, Bool.false_eq_true, if_false] at h
      obtain ⟨h1, h2, h3, h4, h5⟩ := ih (i + 1) _ q h
      obtain ⟨b1, b2, b3, b4, _⟩ := loopBody_spec fns env i p
      refine ⟨by rw [h1, b2], by rw [h2, b3], fun s hs => h3 s (b4 s hs), h4, ?_⟩
      exact List.IsPrefix.trans (by rw [b1]; exact List.prefix_append _ _) h5

/-- The loop ends as soon as an iteration sees Escape pressed or receives a
close request: `n + 2` units of fuel suffice when that is iteration
`i + n`. -/
theorem renderLoop_terminates (fns : MathFns K) (env : Env K) (n : Nat) :
    ∀ (i : Nat) (p : Proc K) (fuel : Nat),
      (env.escapePressed (i + n) = true ∨ WindowEvent.close ∈ env.glfwPollEvents (i + n)) →
      n + 2 ≤ fuel → ∃ q, renderLoop fns env fuel i p = some q := by
  induction n with
  | zero =>
    intro i p fuel h hf
    obtain ⟨f, rfl⟩ : ∃ f, fuel = f + 2 := ⟨fuel - 2, by omega⟩
    by_cases hc : p.shouldClose = true
    · exact ⟨p, by simp [renderLoop, hc]⟩
    · have hb : (loopBody fns env i p).shouldClose = true :=
        (loopBody_spec fns env i p).2.2.2.2.2 (Or.inr (by simpa using h))
      exact ⟨loopBody fns env i p, by simp [renderLoop, hc, hb]⟩
  | succ n ih =>
    intro i p fuel h hf
    obtain ⟨f, rfl⟩ : ∃ f, fuel = f + 1 := ⟨fuel - 1, by omega⟩
    by_cases hc : p.shouldClose = true
    · exact ⟨p, by simp [renderLoop, hc]⟩
    · have h2 : env.escapePressed (i + 1 + n) = true
          ∨ WindowEvent.close ∈ env.glfwPollEvents (i + 1 + n) := by
        have e : i + 1 + n = i + (n + 1) := by omega
        rw [e]; exact h
      obtain ⟨q, hq⟩ := ih (i + 1) (loopBody fns env i p) f h2 (by omega)
      exact ⟨q, by simp [renderLoop, hc, hq]⟩

/-- The run of the loop when Escape is first seen in iteration `i + n` and
no close request arrives before: `n` iterations that do not set the flag,
then the iteration that sets it, completed, and nothing more. -/
theorem renderLoop_escape (fns : MathFns K) (env : Env K) (n : Nat) :
    ∀ (i : Nat) (p : Proc K) (fuel : Nat), p.shouldClose = false →
      (∀ j, j < n → env.escapePressed (i + j) = false
        ∧ WindowEvent.close ∉ env.glfwPollEvents (i + j)) →
      env.escapePressed (i + n) = true → n + 2 ≤ fuel →
      ∃ (q : Proc K) (pre : List (LoopStep K)) (t : K) (cs : List (GLCall K))
        (evs : List WindowEvent),
        renderLoop fns env fuel i p = some q ∧
        q.steps = p.steps ++ pre ++ [LoopStep.processInput true, LoopStep.render t cs,
          LoopStep.glfwSwapBuffers, LoopStep.glfwPollEvents evs] ∧
        (∀ s ∈ pre, s ≠ LoopStep.processInput true) ∧
        pre.map LoopStep.phase = (List.replicate n fullIteration).flatten := by
  induction n with
  | zero =>
    intro i p fuel hp _ hesc hf
    obtain ⟨f, rfl⟩ : ∃ f, fuel = f + 2 := ⟨fuel - 2, by omega⟩
    have hesc0 : env.escapePressed i = true := by simpa using hesc
    obtain ⟨b1, _, _, _, b5⟩ := loopBody_spec fns env i p
    have hb : (loopBody fns env i p).shouldClose = true := b5.2 (Or.inr (Or.inl hesc0))
    refine ⟨loopBody fns env i p, [], env.glfwGetTime i,
      render fns p.g (env.glfwGetTime i), env.glfwPollEvents i,
      by simp [renderLoop, hp, hb], ?_, by simp, by simp⟩
    rw [b1, hesc0]
    simp
  | succ n ih =>
    intro i p fuel hp hbefore hesc hf
    obtain ⟨f, rfl⟩ : ∃ f, fuel = f + 1 := ⟨fuel - 1, by omega⟩
    obtain ⟨b1, _, _, _, b5⟩ := loopBody_spec fns env i p
    have h0 := hbefore 0 (by omega)
    simp only [Nat.add_zero] at h0
    have hb : (loopBody fns env i p).shouldClose = false := by
      cases hv : (loopBody fns env i p).shouldClose with
      | false => rfl
      | true =>
        rcases b5.1 hv with h | h | h
        · rw [hp] at h; cases h
        · rw [h0.1] at h; cases h
        · exact absurd h h0.2
    have hbefore2 : ∀ j, j < n → env.escapePressed (i + 1 + j) = false
        ∧ WindowEvent.close ∉ env.glfwPollEvents (i + 1 + j) := by
      intro j hj
      have e : i + 1 + j = i + (j + 1) := by omega
      rw [e]; exact hbefore (j + 1) (by omega)
    have hesc2 : env.escapePressed (i + 1 + n) = true := by
      have e : i + 1 + n = i + (n + 1) := by omega
      rw [e]; exact hesc
    obtain ⟨q, pre, t, cs, evs, hq, hsteps, hpre, hph⟩ :=
      ih (i + 1) (loopBody fns env i p) f hb hbefore2 hesc2 (by omega)
    refine ⟨q, [LoopStep.processInput false,
        LoopStep.render (env.glfwGetTime i) (render fns p.g (env.glfwGetTime i)),
        LoopStep.glfwSwapBuffers, LoopStep.glfwPollEvents (env.glfwPollEvents i)] ++ pre,
      t, cs, evs, by simp [renderLoop, hp, hq], ?_, ?_, ?_⟩
    · rw [hsteps, b1, h0.1]
      simp
    · intro s hs
      rcases List.mem_append.1 hs with h | h
      · simp at h
        rcases h with h | h | h | h <;> subst h <;> simp
      · exact hpre s h
    · rw [List.map_append, hph, List.replicate_succ, List.flatten_cons]
      rfl

omit [Field K] in
/-- The steps after the flag was set, when no earlier step set it. -/
theorem afterFlagSet_append (pre rest : List (LoopStep K))
    (hpre : ∀ s ∈ pre, s ≠ LoopStep.processInput true) :
    afterFlagSet (pre ++ LoopStep.processInput true :: rest) = rest := by
  induction pre with
  | nil => rfl
  | cons s pre ih =>
    have hs := hpre s (by simp)
    have ih2 := ih (fun x hx => hpre x (by simp [hx]))
    cases s with
    | processInput b =>
      cases b with
      | true => exact absurd rfl hs
      | false => simpa [afterFlagSet] using ih2
    | render t cs => simpa [afterFlagSet] using ih2
    | glfwSwapBuffers => simpa [afterFlagSet] using ih2
    | glfwPollEvents evs => simpa [afterFlagSet] using ih2

/-- One iteration keeps the globals other than through the events it
delivers: positive sizes in, positive sizes out. -/
theorem loopBody_pos (fns : MathFns K) (env : Env K) (i : Nat) (p : Proc K)
    (h0 : 0 < p.g.gl_width ∧ 0 < p.g.gl_height)
    (hpos : ∀ w h, WindowEvent.size w h ∈ env.glfwPollEvents i → 0 < w ∧ 0 < h) :
    0 < (loopBody fns env i p).g.gl_width ∧ 0 < (loopBody fns env i p).g.gl_height := by
  unfold loopBody
  apply foldl_deliver_pos _ _ _ hpos
  cases hesc : env.escapePressed i <;> simpa [processInput, hesc] using h0

/-- The state in which `main` enters the render loop: no step yet, nothing on
standard error, the close flag clear, the default viewport size. -/
theorem loopState_zero (fns : MathFns K) (env : Env K) :
    (loopState fns env 0).steps = [] ∧ (loopState fns env 0).stderr = [] ∧
    (loopState fns env 0).shouldClose = false ∧
    (loopState fns env 0).g.gl_width = 640 ∧ (loopState fns env 0).g.gl_height = 480 := by
  unfold loopState loadTexture
  cases env.stbi_load <;> simp [setup, Proc.gl]

/-- When the decoder returns `NULL`, `main` enters the render loop having
printed the failure message and uploaded no pixels. -/
theorem loopState_zero_no_texture (fns : MathFns K) (env : Env K)
    (h : env.stbi_load = none) :
    "Failed to load texture\n" ∈ (loopState fns env 0).stdout ∧
    ∀ c ∈ (loopState fns env 0).calls, c.isTexImage = false := by
  have hall : (loopState fns env 0).calls.all (fun c => !c.isTexImage) = true := by
    unfold loopState loadTexture
    rw [h]
    rfl
  refine ⟨?_, ?_⟩
  · unfold loopState loadTexture
    rw [h]
    simp
  · intro c hc
    have := List.all_eq_true.1 hall c hc
    simpa using this

/-- The function `main` when GLFW starts and the window opens: the run of
the render loop from the state `loopState 0`, then `glfwTerminate` and exit
code 0. -/
theorem main_eq_of_window (fns : MathFns K) (env : Env K) (fuel : Nat)
    (hinit : env.glfwInit = true) (hwin : env.glfwCreateWindow = true) :
    main fns env fuel =
      (renderLoop fns env fuel 0 (loopState fns env 0)).map
        (fun p => ((0 : Int), { p with calls := p.calls ++ [Call.glfwTerminate] })) := by
  unfold main
  simp only [hinit, hwin, Bool.not_true, Bool.false_eq_true, if_false]
  change (match renderLoop fns env fuel 0 (loopState fns env 0) with
    | none => none
    | some p => some ((0 : Int), { p with calls := p.calls ++ [Call.glfwTerminate] })) = _
  cases renderLoop fns env fuel 0 (loopState fns env 0) <;> rfl

/-- The states the render loop of `main` goes through are the states
`loopState`: a finished run from `loopState i` ends in some `loopState n`. -/
theorem renderLoop_loopState (fns : MathFns K) (env : Env K) (fuel : Nat) :
    ∀ (i : Nat) (q : Proc K), renderLoop fns env fuel i (loopState fns env i) = some q →
      ∃ n, i ≤ n ∧ q = loopState fns env n := by
  induction fuel with
  | zero => intro i q h; simp [renderLoop] at h
  | succ f ih =>
    intro i q h
    unfold renderLoop at h
    by_cases hc : (loopState fns env i).shouldClose = true
    · simp only [hc, if_true, Option.some.injEq] at h
      exact ⟨i, le_refl i, h.symm⟩
    · simp only [hc, Bool.false_eq_true, if_false] at h
      obtain ⟨n, hn, hq⟩ := ih (i + 1) q h
      exact ⟨n, by omega, hq⟩

end loop_lemmas

end SpinningCube

namespace SpinningCube

/-- C7, as stated, fails: after a resize callback with the size `(0, 0)`
(delivered in the first iteration), the state the loop continues from has a
stored width and height that are not positive. -/
theorem viewport_not_positive_after_zero_resize :
    ¬ (0 < (loopState sampleFns
          (sampleEnv none (fun _ => false) (fun _ => [WindowEvent.size 0 0])) 1).g.gl_width ∧
       0 < (loopState sampleFns
          (sampleEnv none (fun _ => false) (fun _ => [WindowEvent.size 0 0])) 1).g.gl_height) := by
  decide

/-- C7, amended: the stored viewport size is `(640, 480)` when the window is
created and when the loop is entered; the resize callback stores the size it
is given; and in every state at the top of the loop, after `n` iterations,
both stored dimensions are positive provided every size event delivered so
far carried a positive width and height. -/
theorem viewport_positive_of_positive_resizes {K : Type} [Field K]
    (fns : MathFns K) (env : Env K) (n : Nat)
    (hpos : ∀ i < n, ∀ w h, WindowEvent.size w h ∈ env.glfwPollEvents i → 0 < w ∧ 0 < h) :
    (({} : Globals).gl_width, ({} : Globals).gl_height) = (640, 480) ∧
    ((loopState fns env 0).g.gl_width, (loopState fns env 0).g.gl_height) = (640, 480) ∧
    (∀ (p : Proc K) (w h : Int),
      ((deliver p (WindowEvent.size w h)).g.gl_width,
        (deliver p (WindowEvent.size w h)).g.gl_height) = (w, h)) ∧
    0 < (loopState fns env n).g.gl_width ∧ 0 < (loopState fns env n).g.gl_height := by
  obtain ⟨_, _, _, hw0, hh0⟩ := loopState_zero fns env
  refine ⟨rfl, by rw [hw0, hh0], fun _ _ _ => rfl, ?_⟩
  induction n with
  | zero => rw [hw0, hh0]; exact ⟨by decide, by decide⟩
  | succ n ih =>
    exact loopBody_pos fns env n _ (ih (fun i hi => hpos i (by omega))) (hpos n (by omega))

/-- Witness for the amended C7: two iterations, the first delivering a resize
to 800 x 600. -/
theorem viewport_positive_of_positive_resizes_witness :
    0 < (loopState sampleFns (sampleEnv none (fun _ => false)
          (fun i => if i = 0 then [WindowEvent.size 800 600] else [])) 2).g.gl_width ∧
    0 < (loopState sampleFns (sampleEnv none (fun _ => false)
          (fun i => if i = 0 then [WindowEvent.size 800 600] else [])) 2).g.gl_height :=
  (viewport_positive_of_positive_resizes sampleFns
    (sampleEnv none (fun _ => false)
      (fun i => if i = 0 then [WindowEvent.size 800 600] else [])) 2
    (by
      intro i hi w h hm
      interval_cases i <;> simp [sampleEnv] at hm
      obtain ⟨rfl, rfl⟩ := hm
      exact ⟨by decide, by decide⟩)).2.2.2

/-- C8, as stated, fails: with Escape held from the start, `main` runs one
iteration, and what the loop executes after `processInput` set the close flag
is `render`, `glfwSwapBuffers`, `glfwPollEvents`: not a full iteration, as
`processInput` is not run again. -/
theorem escape_no_further_full_iteration :
    (main sampleFns (sampleEnv none (fun _ => true) (fun _ => [])) 2).map
        (fun r => (afterFlagSet r.2.steps).map LoopStep.phase)
      = some [Phase.render, Phase.present, Phase.pollEvents] ∧
    (main sampleFns (sampleEnv none (fun _ => true) (fun _ => [])) 2).map
        (fun r => (afterFlagSet r.2.steps).map LoopStep.phase)
      ≠ some fullIteration := by
  decide

/-- C8, amended: `processInput` sets the close flag when it sees Escape
pressed (and leaves it alone otherwise); and if Escape is first seen pressed
in iteration `n`, no close request having arrived before, then `main` runs
exactly `n + 1` full iterations and returns 0: the iteration whose
`processInput` set the flag is completed (`render`, `glfwSwapBuffers`,
`glfwPollEvents`) and no further iteration starts. -/
theorem escape_completes_current_iteration {K : Type} [Field K]
    (fns : MathFns K) (env : Env K) (n fuel : Nat)
    (hinit : env.glfwInit = true) (hwin : env.glfwCreateWindow = true)
    (hbefore : ∀ j < n, env.escapePressed j = false
      ∧ WindowEvent.close ∉ env.glfwPollEvents j)
    (hesc : env.escapePressed n = true) (hfuel : n + 2 ≤ fuel) :
    (∀ p : Proc K, (processInput true p).shouldClose = true
      ∧ (processInput false p).shouldClose = p.shouldClose) ∧
    ∃ p : Proc K, main fns env fuel = some (0, p) ∧
      p.shouldClose = true ∧
      p.steps.map LoopStep.phase = (List.replicate (n + 1) fullIteration).flatten ∧
      (afterFlagSet p.steps).map LoopStep.phase
        = [Phase.render, Phase.present, Phase.pollEvents] := by
  refine ⟨fun p => ⟨rfl, rfl⟩, ?_⟩
  obtain ⟨hs0, _, hc0, _, _⟩ := loopState_zero fns env
  obtain ⟨q, pre, t, cs, evs, hq, hsteps, hpre, hph⟩ :=
    renderLoop_escape fns env n 0 (loopState fns env 0) fuel hc0
      (by simpa using hbefore) (by simpa using hesc) hfuel
  have hclose := (renderLoop_spec fns env fuel 0 _ q hq).2.2.2.1
  rw [hs0, List.nil_append] at hsteps
  refine ⟨{ q with calls := q.calls ++ [Call.glfwTerminate] }, ?_, hclose, ?_, ?_⟩
  · rw [main_eq_of_window fns env fuel hinit hwin, hq]
    rfl
  · show q.steps.map LoopStep.phase = _
    rw [hsteps, List.map_append, hph, List.replicate_succ', List.flatten_append]
    rfl
  · show (afterFlagSet q.steps).map LoopStep.phase = _
    rw [hsteps, afterFlagSet_append pre _ hpre]
    rfl

/-- Witness for the amended C8: Escape first pressed in iteration 1. -/
theorem escape_completes_current_iteration_witness :
    ∃ p : Proc ℚ,
      main sampleFns (sampleEnv none (fun i => decide (i = 1)) (fun _ => [])) 3
        = some (0, p) ∧
      p.shouldClose = true ∧
      p.steps.map LoopStep.phase = (List.replicate (1 + 1) fullIteration).flatten ∧
      (afterFlagSet p.steps).map LoopStep.phase
        = [Phase.render, Phase.present, Phase.pollEvents] :=
  (escape_completes_current_iteration sampleFns
    (sampleEnv none (fun i => decide (i = 1)) (fun _ => [])) 1 3 rfl rfl
    (by decide) (by decide) (by decide)).2

end SpinningCube

namespace SpinningCube

/-- Every finished run of `main` in which the window opened went through the
render loop at least once: its steps begin with one full iteration. -/
theorem renderLoop_enters {K : Type} [Field K] (fns : MathFns K) (env : Env K)
    (fuel : Nat) (q : Proc K)
    (h : renderLoop fns env fuel 0 (loopState fns env 0) = some q) :
    (q.steps.take 4).map LoopStep.phase = fullIteration := by
  obtain ⟨hs0, _, hc0, _, _⟩ := loopState_zero fns env
  cases fuel with
  | zero => simp [renderLoop] at h
  | succ f =>
    unfold renderLoop at h
    simp only [hc0, Bool.false_eq_true, if_false] at h
    obtain ⟨_, _, _, _, hpre⟩ := renderLoop_spec fns env f 1 _ q h
    obtain ⟨b1, _⟩ := loopBody_spec fns env 0 (loopState fns env 0)
    rw [b1, hs0, List.nil_append] at hpre
    obtain ⟨rest, hrest⟩ := hpre
    rw [← hrest]
    rfl

/-- C9: when `main` returns, its exit code is 1 if and only if `glfwInit`
failed or the window could not be created, and 0 otherwise. In the two
failure cases it returns 1 at once, with one message on standard error,
nothing on standard output and no iteration of the render loop. Otherwise it
returns 0 as soon as the loop ends (which it does once an iteration sees
Escape or a close request), having run at least one full iteration; and when
the decoder returned `NULL` it has printed "Failed to load texture" on
standard output and uploaded no pixels, the exit code being 0 all the
same. -/
theorem main_exit_code {K : Type} [Field K] (fns : MathFns K) (env : Env K) :
    (∀ fuel r, main fns env fuel = some r →
      (r.1 = 1 ↔ (env.glfwInit = false ∨ env.glfwCreateWindow = false)) ∧
      (r.1 = 0 ↔ (env.glfwInit = true ∧ env.glfwCreateWindow = true))) ∧
    (env.glfwInit = false → ∀ fuel, ∃ p, main fns env fuel = some (1, p) ∧
      p.stderr = ["ERROR: could not start GLFW3\n"] ∧ p.stdout = [] ∧ p.steps = []) ∧
    (env.glfwInit = true → env.glfwCreateWindow = false →
      ∀ fuel, ∃ p, main fns env fuel = some (1, p) ∧
        p.stderr = ["ERROR: could not open window with GLFW3\n"] ∧ p.stdout = [] ∧
        p.steps = []) ∧
    (env.glfwInit = true → env.glfwCreateWindow = true →
      (∀ n fuel, (env.escapePressed n = true ∨ WindowEvent.close ∈ env.glfwPollEvents n) →
        n + 2 ≤ fuel → ∃ p, main fns env fuel = some (0, p)) ∧
      (∀ fuel r, main fns env fuel = some r →
        r.1 = 0 ∧ r.2.stderr = [] ∧
        (r.2.steps.take 4).map LoopStep.phase = fullIteration ∧
        (env.stbi_load = none →
          "Failed to load texture\n" ∈ r.2.stdout ∧
          ∀ c ∈ r.2.calls, c.isTexImage = false))) := by
  have hfail1 : env.glfwInit = false → ∀ fuel, ∃ p, main fns env fuel = some (1, p) ∧
      p.stderr = ["ERROR: could not start GLFW3\n"] ∧ p.stdout = [] ∧ p.steps = [] := by
    intro h fuel
    exact ⟨{ calls := [Call.glfwInit], stderr := ["ERROR: could not start GLFW3\n"] },
      by simp [main, h], rfl, rfl, rfl⟩
  have hfail2 : env.glfwInit = true → env.glfwCreateWindow = false →
      ∀ fuel, ∃ p, main fns env fuel = some (1, p) ∧
        p.stderr = ["ERROR: could not open window with GLFW3\n"] ∧ p.stdout = [] ∧
        p.steps = [] := by
    intro h1 h2 fuel
    exact ⟨{ stderr := ["ERROR: could not open window with GLFW3\n"],
             calls := [Call.glfwInit, Call.glfwCreateWindow 640 480 "My spinning cube",
               Call.glfwTerminate] },
      by simp [main, h1, h2], rfl, rfl, rfl⟩
  have hok : env.glfwInit = true → env.glfwCreateWindow = true →
      ∀ fuel r, main fns env fuel = some r →
        r.1 = 0 ∧ r.2.stderr = [] ∧
        (r.2.steps.take 4).map LoopStep.phase = fullIteration ∧
        (env.stbi_load = none →
          "Failed to load texture\n" ∈ r.2.stdout ∧
          ∀ c ∈ r.2.calls, c.isTexImage = false) := by
    intro h1 h2 fuel r hr
    rw [main_eq_of_window fns env fuel h1 h2] at hr
    cases hq : renderLoop fns env fuel 0 (loopState fns env 0) with
    | none => rw [hq] at hr; cases hr
    | some q =>
      rw [hq] at hr
      simp only [Option.map_some', Option.some.injEq] at hr
      subst hr
      obtain ⟨_, he0, _, _, _⟩ := loopState_zero fns env
      obtain ⟨c1, c2, c3, _, _⟩ := renderLoop_spec fns env fuel 0 _ q hq
      refine ⟨rfl, by show q.stderr = []; rw [c2, he0],
        renderLoop_enters fns env fuel q hq, ?_⟩
      intro hnone
      obtain ⟨t1, t2⟩ := loopState_zero_no_texture fns env hnone
      refine ⟨c3 _ t1, ?_⟩
      intro c hc
      have hc2 : c ∈ q.calls ++ [Call.glfwTerminate] := hc
      rw [c1] at hc2
      rcases List.mem_append.1 hc2 with h | h
      · exact t2 c h
      · simp at h
        subst h
        rfl
  refine ⟨?_, hfail1, hfail2, ?_⟩
  · intro fuel r hr
    cases h1 : env.glfwInit with
    | false =>
      obtain ⟨p, hp, _⟩ := hfail1 h1 fuel
      rw [hp] at hr
      cases hr
      simp
    | true =>
      cases h2 : env.glfwCreateWindow with
      | false =>
        obtain ⟨p, hp, _⟩ := hfail2 h1 h2 fuel
        rw [hp] at hr
        cases hr
        simp
      | true =>
        have := (hok h1 h2 fuel r hr).1
        simp [this]
  · intro h1 h2
    refine ⟨?_, hok h1 h2⟩
    intro n fuel hn hf
    obtain ⟨q, hq⟩ := renderLoop_terminates fns env n 0 (loopState fns env 0) fuel
      (by simpa using hn) hf
    exact ⟨_, by rw [main_eq_of_window fns env fuel h1 h2, hq]; rfl⟩

/-- Witness for C9: with no texture file and Escape held, `main` returns 0
after one iteration. -/
theorem main_exit_code_witness :
    ∃ p, main sampleFns (sampleEnv none (fun _ => true) (fun _ => [])) 2 = some (0, p) :=
  ((main_exit_code sampleFns (sampleEnv none (fun _ => true) (fun _ => []))).2.2.2
    rfl rfl).1 0 2 (Or.inl rfl) (by decide)

end SpinningCube
